import Mathlib

/-!
Verification development for the `ingest` job-lifecycle pipeline.

The Python sources embedded here:
* `src/lambdas/ingest-on-done-create-job/handler.py`  (intake gateway)
* `src/lambdas/ingest-update-job-state/handler.py`    (state transition recorder)
* `src/lambdas/ingest-validate-files/handler.py`      (folder validator)
* `src/lambdas/ingest-write-manifest/handler.py`      (manifest writer)
* `src/ingest_on_done_create_job.py`                  (earlier intake iteration,
  same `generate_job_id`)

Conventions of the shallow embedding:
* DynamoDB tables are finite maps `String → Option JobRecord`; `update_item`
  with `SET` creates the item when absent (DynamoDB semantics), so every
  non-key attribute is an `Option`.
* S3 listing pages are given as the sequence of `Contents` lists the
  paginator would yield; `IsTruncated` corresponds to further pages existing.
* Timestamps are opaque ISO strings supplied by a `clock : Nat → String`
  indexed by the order of `now_iso()` calls inside one invocation.
* Python exceptions become `Except PyError`; Python `or`-falsiness on
  strings/lists/dicts is modelled explicitly (`strOr`, `listOr`, ...).
* `hashlib.sha256(...).hexdigest()` over `str.encode("utf-8")` is embedded
  as executable SHA-256 (FIPS 180-4) over the UTF-8 byte list of the string.
-/

namespace Ingest

/-! ## SHA-256 (FIPS 180-4), executable over byte lists (`Nat` < 256) -/

/-- Truncation to a 32-bit word. -/
def w32 (n : Nat) : Nat := n % 4294967296

/-- Rotate a 32-bit word right by `r` bits. -/
def rotr32 (r x : Nat) : Nat := w32 ((x >>> r) ||| (x <<< (32 - r)))

def bsig0 (x : Nat) : Nat := rotr32 2 x ^^^ rotr32 13 x ^^^ rotr32 22 x

def bsig1 (x : Nat) : Nat := rotr32 6 x ^^^ rotr32 11 x ^^^ rotr32 25 x

def ssig0 (x : Nat) : Nat := rotr32 7 x ^^^ rotr32 18 x ^^^ (x >>> 3)

def ssig1 (x : Nat) : Nat := rotr32 17 x ^^^ rotr32 19 x ^^^ (x >>> 10)

def chF (e f g : Nat) : Nat := (e &&& f) ^^^ ((e ^^^ 4294967295) &&& g)

def majF (a b c : Nat) : Nat := (a &&& b) ^^^ (a &&& c) ^^^ (b &&& c)

/-- The 64 SHA-256 round constants, in decimal. -/
def shaK : List Nat :=
  [1116352408, 1899447441, 3049323471, 3921009573, 961987163,
   1508970993, 2453635748, 2870763221, 3624381080, 310598401,
   607225278, 1426881987, 1925078388, 2162078206, 2614888103,
   3248222580, 3835390401, 4022224774, 264347078, 604807628,
   770255983, 1249150122, 1555081692, 1996064986, 2554220882,
   2821834349, 2952996808, 3210313671, 3336571891, 3584528711,
   113926993, 338241895, 666307205, 773529912, 1294757372,
   1396182291, 1695183700, 1986661051, 2177026350, 2456956037,
   2730485921, 2820302411, 3259730800, 3345764771, 3516065817,
   3600352804, 4094571909, 275423344, 430227734, 506948616,
   659060556, 883997877, 958139571, 1322822218, 1537002063,
   1747873779, 1955562222, 2024104815, 2227730452, 2361852424,
   2428436474, 2756734187, 3204031479, 3329325298]

/-- The SHA-256 initial hash value. -/
def shaH0 : List Nat :=
  [1779033703, 3144134277, 1013904242, 2773480762,
   1359893119, 2600822924, 528734635, 1541459225]

/-- Big-endian 8-byte encoding of the message bit length. -/
def lenBytes (n : Nat) : List Nat :=
  [n / 72057594037927936 % 256, n / 281474976710656 % 256,
   n / 1099511627776 % 256, n / 4294967296 % 256,
   n / 16777216 % 256, n / 65536 % 256, n / 256 % 256, n % 256]

/-- SHA-256 padding: append `0x80`, zeros, then the 64-bit bit length. -/
def shaPad (msg : List Nat) : List Nat :=
  let L := msg.length
  let z := (56 + 64 - (L + 1) % 64) % 64
  msg ++ [128] ++ List.replicate z 0 ++ lenBytes (8 * L)

/-- Split a byte list into 64-byte blocks. -/
def toBlocks : List Nat → List (List Nat)
  | [] => []
  | b :: l => (b :: l).take 64 :: toBlocks ((b :: l).drop 64)
termination_by l => l.length
decreasing_by simp [List.length_drop]; omega

/-- Big-endian 32-bit words from bytes. -/
def toWords : List Nat → List Nat
  | b0 :: b1 :: b2 :: b3 :: rest => (((b0 * 256 + b1) * 256 + b2) * 256 + b3) :: toWords rest
  | _ => []

/-- One step of the message-schedule extension, on the reversed schedule. -/
def schedStep (rw : List Nat) : Nat :=
  w32 (ssig1 (rw.getD 1 0) + rw.getD 6 0 + ssig0 (rw.getD 14 0) + rw.getD 15 0)

/-- The 64-word message schedule of one block (given as 16 words). -/
def schedule (m16 : List Nat) : List Nat :=
  ((List.range 48).foldl (fun rw _ => schedStep rw :: rw) m16.reverse).reverse

/-- One SHA-256 round on the working variables `[a,b,c,d,e,f,g,h]`. -/
def roundStep (s : List Nat) (kw : Nat × Nat) : List Nat :=
  match s with
  | [a, b, c, d, e, f, g, h] =>
    let t1 := w32 (h + bsig1 e + chF e f g + kw.1 + kw.2)
    let t2 := w32 (bsig0 a + majF a b c)
    [w32 (t1 + t2), a, b, c, w32 (d + t1), e, f, g]
  | s => s

/-- SHA-256 compression of one 64-byte block into the hash state. -/
def compressBlock (H : List Nat) (block : List Nat) : List Nat :=
  let s := (shaK.zip (schedule (toWords block))).foldl roundStep H
  (H.zip s).map (fun p => w32 (p.1 + p.2))

/-- Big-endian bytes of one 32-bit word. -/
def wordBytes (w : Nat) : List Nat :=
  [w / 16777216 % 256, w / 65536 % 256, w / 256 % 256, w % 256]

/-- SHA-256 digest (32 bytes) of a byte list. -/
def sha256 (msg : List Nat) : List Nat :=
  ((toBlocks (shaPad msg)).foldl compressBlock shaH0).flatMap wordBytes

/-- Lower-case hex digit, as produced by `hexdigest()`. -/
def hexDigitChar (d : Nat) : Char :=
  if d < 10 then Char.ofNat (48 + d) else Char.ofNat (87 + d)

/-- Lower-case hex encoding of a byte list. -/
def bytesToHex (bs : List Nat) : List Char :=
  bs.flatMap (fun b => [hexDigitChar (b / 16), hexDigitChar (b % 16)])

/-- Models `hashlib.sha256(msg).hexdigest()`. -/
def sha256hex (msg : List Nat) : String := String.mk (bytesToHex (sha256 msg))

/-! ## UTF-8 encoding (`str.encode("utf-8")`) -/

/-- UTF-8 encoding of one Unicode scalar value (as `Nat`). -/
def utf8EncodeCp (c : Nat) : List Nat :=
  if c < 128 then [c]
  else if c < 2048 then [192 + c / 64, 128 + c % 64]
  else if c < 65536 then [224 + c / 4096, 128 + c / 64 % 64, 128 + c % 64]
  else [240 + c / 262144, 128 + c / 4096 % 64, 128 + c / 64 % 64, 128 + c % 64]

/-- UTF-8 byte list of a string (`s.encode("utf-8")`). -/
def utf8Bytes (s : String) : List Nat :=
  s.data.flatMap (fun ch => utf8EncodeCp ch.toNat)

/-! ## `generate_job_id` (intake handler, both iterations) -/

/-- The raw string `f"{project_code}:{folder_path}"` hashed by
`generate_job_id`. -/
def rawJobString (project_code folder_path : String) : String :=
  project_code ++ ":" ++ folder_path

/-- Embeds `generate_job_id` from `ingest-on-done-create-job/handler.py` (and
identically `ingest_on_done_create_job.py`):
`hashlib.sha256(f"{project_code}:{folder_path}".encode("utf-8")).hexdigest()`. -/
def generate_job_id (project_code folder_path : String) : String :=
  sha256hex (utf8Bytes (rawJobString project_code folder_path))

/-! ## UTF-8 decoding, used to prove the encoding injective -/

/-- Decode one UTF-8 sequence: the codepoint and the remaining bytes. -/
def utf8DecodeOne (l : List Nat) : Option (Nat × List Nat) :=
  match l with
  | [] => none
  | b :: rest =>
    if b < 128 then some (b, rest)
    else if b < 192 then none
    else if b < 224 then
      match rest with
      | b1 :: rest2 => some ((b - 192) * 64 + (b1 - 128), rest2)
      | [] => none
    else if b < 240 then
      match rest with
      | b1 :: b2 :: rest2 => some (((b - 224) * 64 + (b1 - 128)) * 64 + (b2 - 128), rest2)
      | _ => none
    else
      match rest with
      | b1 :: b2 :: b3 :: rest2 =>
        some ((((b - 240) * 64 + (b1 - 128)) * 64 + (b2 - 128)) * 64 + (b3 - 128), rest2)
      | _ => none

/-- Fuelled UTF-8 decoding of a whole byte list. -/
def utf8DecodeFuel (fuel : Nat) (l : List Nat) : Option (List Nat) :=
  match fuel with
  | 0 => if l = [] then some [] else none
  | fuel + 1 =>
    match l with
    | [] => some []
    | b :: rest =>
      match utf8DecodeOne (b :: rest) with
      | none => none
      | some (c, rest2) => (utf8DecodeFuel fuel rest2).map (c :: ·)

/-- UTF-8 encoding of a codepoint list. -/
def utf8EncodeList (l : List Nat) : List Nat := l.flatMap utf8EncodeCp

/-! ## Hex encoding is injective on byte lists -/

/-- Numeric value of a lower-case hex digit character. -/
def hexVal (c : Char) : Nat :=
  if 97 ≤ c.toNat then c.toNat - 87 else c.toNat - 48

/-- Partial inverse of `bytesToHex`. -/
def hexToBytes : List Char → Option (List Nat)
  | [] => some []
  | [_] => none
  | c1 :: c2 :: l => (hexToBytes l).map ((hexVal c1 * 16 + hexVal c2) :: ·)

/-! ## Data model: job records, the DynamoDB job table, Python errors -/

/-- Models `e.response["Error"]` of a boto3 `ClientError`. -/
structure ErrInfo where
  code : String
  message : String
deriving DecidableEq, Repr

/-- Python exceptions raised by the handlers. -/
inductive PyError where
  | runtimeError (msg : String)
  | valueError (msg : String)
  | clientError (e : ErrInfo)
deriving DecidableEq, Repr

/-- A DynamoDB attribute value that the state recorder may store for an
optional context field: attribute absent, attribute `NULL`, or a string. -/
inductive AttrOpt where
  | absent
  | nullV
  | strV (s : String)
deriving DecidableEq, Repr

/-- One `state_history` entry written by `ingest-update-job-state/handler.py`.
Field names `atTime`/`toState`/`byAttr` model the `"at"`/`"to"`/`"by"` keys
(which are reserved words in Lean). -/
structure HistoryEntry where
  atTime : String
  toState : String
  byAttr : String
  project_code : AttrOpt
  trigger : AttrOpt
  execution_id : AttrOpt
  entered_time : AttrOpt
  ruleset_version : AttrOpt
deriving DecidableEq, Repr

/-- A job record in the `IngestJobs` table.  `job_id` is the key of the
table map; every non-key attribute is optional because DynamoDB items are
attribute maps and `update_item` creates items holding only the attributes
it sets. -/
structure JobRecord where
  project_code : Option String := none
  ingest_folder : Option String := none
  state : Option String := none
  trigger : Option String := none
  created_at : Option String := none
  updated_at : Option String := none
  last_seen_at : Option String := none
  last_seen_object_key : Option String := none
  ruleset_version : Option String := none
  state_history : Option (List HistoryEntry) := none
  start_error : Option ErrInfo := none
  manifest_s3_uri : Option String := none
  manifest_bucket : Option String := none
  manifest_key : Option String := none
deriving DecidableEq, Repr

/-- The `IngestJobs` DynamoDB table, keyed by `job_id`. -/
abbrev Jobs := String → Option JobRecord

/-- Store a record under a key (the effect of `put_item` / a full
`update_item` result). -/
def dbPut (jobs : Jobs) (j : String) (r : JobRecord) : Jobs :=
  fun k => if k = j then some r else jobs k

/-! ## Intake gateway: `ingest-on-done-create-job/handler.py` -/

/-- Models `object_key.rsplit("/", 1)[0] + "/"` — the folder path of a key that
contains at least one `'/'`. -/
def folderPathOf (object_key : String) : String :=
  String.mk ((((object_key.data.reverse.dropWhile (fun c => c ≠ '/')).drop 1).reverse) ++ ['/'])

/-- Models `folder_path.split("/", 1)[0]` — the first path segment. -/
def projectCodeOf (folder_path : String) : String :=
  String.mk (folder_path.data.takeWhile (fun c => c ≠ '/'))

/-- Outcome of the injected `sfn.start_execution` collaborator call. -/
inductive SfnOutcome where
  | started (arn : Option String)
  | failed (e : ErrInfo)
deriving DecidableEq, Repr

/-- The Step Functions execution input assembled for a new job. -/
structure ExecInput where
  job_id : String
  project_code : String
  bucket : String
  object_key : String
  folder_path : String
  ingest_folder : String
  trigger : String
  created_at : String
deriving DecidableEq, Repr

/-- One `sfn.start_execution` call made by the intake handler. -/
structure StartCall where
  stateMachineArn : String
  name : String
  input : ExecInput
deriving DecidableEq, Repr

/-- The dict returned by the intake handler (absent keys are `none`). -/
structure IntakeResult where
  status : String
  message : Option String := none
  reason : Option String := none
  job_id : Option String := none
  ingest_folder : Option String := none
  execution_arn : Option String := none
deriving DecidableEq, Repr

/-- Embeds `handler` of `ingest-on-done-create-job/handler.py`.

* `smArn` — the `STATE_MACHINE_ARN` environment variable;
* `jobs` — the job table;
* `sfn` — outcome of the `start_execution` call, were it made;
* `clock n` — the string returned by the `n`-th `now_iso()` call;
* `records` — the S3 notification records as `(bucket, object_key)` pairs,
  with `object_key` already percent-decoded (`unquote_plus`).

Returns the table after the invocation, the list of `start_execution`
calls made, and the returned dict or raised exception. -/
def intake_handler (smArn : Option String) (jobs : Jobs) (sfn : SfnOutcome)
    (clock : Nat → String) (records : List (String × String)) :
    Jobs × List StartCall × Except PyError IntakeResult :=
  match smArn with
  | none =>
    (jobs, [], .error (.runtimeError "Missing required environment variable: STATE_MACHINE_ARN"))
  | some arn =>
    if arn.isEmpty then
      (jobs, [], .error (.runtimeError "Missing required environment variable: STATE_MACHINE_ARN"))
    else
      match records with
      | [] => (jobs, [], .ok { status := "error", message := some "Invalid event structure" })
      | (bucket, object_key) :: _ =>
        if "_INGEST_DONE".data.isSuffixOf object_key.data then
          if object_key.data.contains '/' then
            let folder_path := folderPathOf object_key
            let project_code := projectCodeOf folder_path
            let job_id := generate_job_id project_code folder_path
            let current_ts := clock 0
            let ingest_folder := "s3://" ++ bucket ++ "/" ++ folder_path
            let job_item : JobRecord :=
              { project_code := some project_code
                ingest_folder := some ingest_folder
                state := some "CREATED"
                trigger := some "_INGEST_DONE"
                created_at := some current_ts
                last_seen_at := some current_ts
                last_seen_object_key := some object_key
                ruleset_version := some "v1.0" }
            match jobs job_id with
            | some old =>
              let seen_ts := clock 1
              let jobs' := dbPut jobs job_id
                { old with last_seen_at := some seen_ts
                           last_seen_object_key := some object_key }
              (jobs', [], .ok { status := "duplicate_ingest_done_ignored"
                                job_id := some job_id
                                ingest_folder := some ingest_folder })
            | none =>
              let jobs1 := dbPut jobs job_id job_item
              let call : StartCall :=
                { stateMachineArn := arn
                  name := job_id
                  input := { job_id, project_code, bucket, object_key, folder_path,
                             ingest_folder, trigger := "_INGEST_DONE",
                             created_at := current_ts } }
              match sfn with
              | .started a =>
                (jobs1, [call], .ok { status := "job_created_and_execution_started"
                                      job_id := some job_id
                                      execution_arn := a })
              | .failed e =>
                if e.code = "ExecutionAlreadyExists" then
                  (jobs1, [call], .ok { status := "job_created_but_execution_already_exists"
                                        job_id := some job_id })
                else
                  let jobs2 := dbPut jobs1 job_id
                    { job_item with state := some "ERROR_STARTING"
                                    start_error := some e
                                    last_seen_at := some (clock 1) }
                  (jobs2, [call], .error (.clientError e))
          else
            (jobs, [], .ok { status := "ignored", reason := some "file_in_root" })
        else
          (jobs, [], .ok { status := "ignored", reason := some "not_ingest_done_marker" })

/-! ## State transition recorder: `ingest-update-job-state/handler.py` -/

/-- The nested `policy` dict of the v1/v1-1 payload style.  `state_next`
models the nested path `policy.state.next`. -/
structure UsePolicy where
  job_id : Option String := none
  state_next : Option String := none
  ruleset_version : Option String := none
  project_code : Option String := none
deriving DecidableEq, Repr

/-- The nested `impl` dict: `impl.event.trigger`,
`impl.orchestration.execution_id`, `impl.orchestration.entered_time`. -/
structure UseImpl where
  event_trigger : Option String := none
  orch_execution_id : Option String := none
  orch_entered_time : Option String := none
deriving DecidableEq, Repr

/-- The state-transition request, supporting both payload styles. -/
structure UpdateEvent where
  policy : Option UsePolicy := none
  impl : Option UseImpl := none
  job_id : Option String := none
  new_state : Option String := none
  ruleset_version : Option String := none
  project_code : Option String := none
  trigger : Option String := none
  execution_id : Option String := none
  entered_time : Option String := none
deriving DecidableEq, Repr

/-- Python `a or b` on optional strings: `None` and `""` are falsy. -/
def strOr (a b : Option String) : Option String :=
  match a with
  | some s => if s.isEmpty then b else some s
  | none => b

/-- Python truthiness of an optional string. -/
def truthyS : Option String → Bool
  | some s => !s.isEmpty
  | none => false

/-- The `job_id` / `new_state` resolution with the mandatory-field check
(`if not job_id or not new_state: raise ValueError`). -/
def resolve_ids (ev : UpdateEvent) : Option (String × String) :=
  let j := strOr (ev.policy.bind (fun p => p.job_id)) ev.job_id
  let s := strOr (ev.policy.bind (fun p => p.state_next)) ev.new_state
  match j, s with
  | some j', some s' => if j'.isEmpty || s'.isEmpty then none else some (j', s')
  | _, _ => none

def resolvedRuleset (ev : UpdateEvent) : Option String :=
  strOr (ev.policy.bind (fun p => p.ruleset_version)) ev.ruleset_version

def resolvedProject (ev : UpdateEvent) : Option String :=
  strOr (ev.policy.bind (fun p => p.project_code)) ev.project_code

def resolvedTrigger (ev : UpdateEvent) : Option String :=
  strOr (ev.impl.bind (fun i => i.event_trigger)) ev.trigger

def resolvedExecId (ev : UpdateEvent) : Option String :=
  strOr (ev.impl.bind (fun i => i.orch_execution_id)) ev.execution_id

def resolvedEnteredTime (ev : UpdateEvent) : Option String :=
  strOr (ev.impl.bind (fun i => i.orch_entered_time)) ev.entered_time

/-- The Python code puts every optional key into the `history_entry` dict,
with value `None` when the resolution yields `None`; boto3 serializes
`None` as a DynamoDB `NULL` attribute.  (It never omits the key.) -/
def optAttr : Option String → AttrOpt
  | some s => .strV s
  | none => .nullV

/-- The `history_entry` dict built by the handler. -/
def historyEntryOf (ev : UpdateEvent) (ts new_state : String) : HistoryEntry :=
  { atTime := ts
    toState := new_state
    byAttr := "stepfunctions"
    project_code := optAttr (resolvedProject ev)
    trigger := optAttr (resolvedTrigger ev)
    execution_id := optAttr (resolvedExecId ev)
    entered_time := optAttr (resolvedEnteredTime ev)
    ruleset_version := optAttr (resolvedRuleset ev) }

/-- The dict returned by the update-state handler. -/
structure UpdateResult where
  ok : Bool
  job_id : String
  new_state : String
  updated_at : String
deriving DecidableEq, Repr

/-- Embeds `handler` of `ingest-update-job-state/handler.py`.  `ts` is the string
returned by its single `now_iso()` call.  The single `update_item`
(`SET #s = :s, updated_at = :u, state_history =
list_append(if_not_exists(state_history, :empty), :h)`) atomically sets the
state, sets `updated_at`, and appends one entry to the ordered list. -/
def update_job_state (jobs : Jobs) (ev : UpdateEvent) (ts : String) :
    Except PyError (Jobs × UpdateResult) :=
  match resolve_ids ev with
  | none => .error (.valueError "job_id and new_state are required.")
  | some (j, s) =>
    let old := (jobs j).getD {}
    let entry := historyEntryOf ev ts s
    let newRec := { old with state := some s
                             updated_at := some ts
                             state_history := some ((old.state_history.getD []) ++ [entry]) }
    .ok (dbPut jobs j newRec, { ok := true, job_id := j, new_state := s, updated_at := ts })

/-- A sequence of state-transition invocations, each with its timestamp. -/
def run_updates (jobs : Jobs) : List (UpdateEvent × String) → Except PyError Jobs
  | [] => .ok jobs
  | (ev, ts) :: rest =>
    match update_job_state jobs ev ts with
    | .error e => .error e
    | .ok (jobs', _) => run_updates jobs' rest

/-- The target state of a call (total, given that the call resolves). -/
def callTarget (j : String) (c : UpdateEvent × String) : String :=
  ((resolve_ids c.1).getD (j, "")).2

/-! ## Folder validator: `ingest-validate-files/handler.py` -/

/-- An S3 object summary as it appears in a `list_objects_v2` `Contents`
entry.  `LastModified` is modelled as its ISO string (the handler only
ever calls `.isoformat()` on it). -/
structure S3Object where
  Key : Option String := none
  Size : Option Int := none
  ETag : Option String := none
  LastModified : Option String := none
deriving DecidableEq, Repr

/-- The paginated listing loop of `list_all_objects`.  `pages` is the
sequence of `Contents` lists the paginator yields; a response is truncated
(`IsTruncated`) exactly when further pages follow. -/
def list_all_objects_go (maxKeys : Nat) : List (List S3Object) → List S3Object → List S3Object
  | [], items => items
  | contents :: rest, items =>
    let items := items ++ contents
    if maxKeys ≤ items.length then items.take maxKeys
    else
      match rest with
      | [] => items
      | _ :: _ => list_all_objects_go maxKeys rest items

/-- Embeds `list_all_objects(bucket, prefix, max_keys)`. -/
def list_all_objects (maxKeys : Nat) (pages : List (List S3Object)) : List S3Object :=
  list_all_objects_go maxKeys pages []

/-- The payload set: listed objects whose `Key` differs from the marker
(`o.get("Key") != marker_key`). -/
def payloadOf (marker_key : String) (objects : List S3Object) : List S3Object :=
  objects.filter (fun o => decide (o.Key ≠ some marker_key))

/-- The error strings the validation loop body records for one payload
object.  An object with a falsy `Key` gets one error and `continue`; the
size and `ETag` checks are independent of each other. -/
def objErrors (allowZero : Bool) (o : S3Object) : List String :=
  if truthyS o.Key = false then ["BAD_OBJECT: missing Key"]
  else
    let k := o.Key.getD ""
    (match o.Size with
     | none => ["BAD_OBJECT: missing Size (" ++ k ++ ")"]
     | some n => if allowZero = false ∧ n = 0 then ["ZERO_BYTE_OBJECT: " ++ k] else [])
    ++ (if truthyS o.ETag = false then ["BAD_OBJECT: missing ETag (" ++ k ++ ")"] else [])

/-- Embeds `validate_objects(objects, marker_key)` returning `(ok, errors)`. -/
def validate_objects (allowZero : Bool) (objects : List S3Object) (marker_key : String) :
    Bool × List String :=
  let payload := payloadOf marker_key objects
  if payload.length = 0 then
    (false, ["EMPTY_FOLDER: no payload objects found (excluding _INGEST_DONE)"])
  else
    let errors := payload.flatMap (objErrors allowZero)
    (errors.isEmpty, errors)

/-- Number of itemized errors the code records for one payload object: one
for a falsy key (the remaining checks are skipped by `continue`), otherwise
one per failing size/fingerprint check. -/
def objectDefects (allowZero : Bool) (o : S3Object) : Nat :=
  if truthyS o.Key = false then 1
  else
    (match o.Size with
     | none => 1
     | some n => if allowZero = false ∧ n = 0 then 1 else 0)
    + (if truthyS o.ETag = false then 1 else 0)

/-- Defect count following the claim's words: the four listed structural
defect kinds (missing key, missing size, zero-byte size when zero-byte
objects are not allowed, missing integrity fingerprint) each count,
independently of one another. -/
def defectCountSpec (allowZero : Bool) (o : S3Object) : Nat :=
  (if truthyS o.Key = false then 1 else 0)
  + (if o.Size = none then 1 else 0)
  + (if allowZero = false ∧ o.Size = some 0 then 1 else 0)
  + (if truthyS o.ETag = false then 1 else 0)

/-- One entry of the inventory snapshot. -/
structure InvItem where
  key : String
  size : Int
  etag : Option String
  last_modified : Option String
deriving DecidableEq, Repr

/-- The loop body building the inventory: skip falsy keys and the marker,
else emit `{key, size, etag, last_modified}`. -/
def payloadItem (marker_key : String) (o : S3Object) : Option InvItem :=
  if truthyS o.Key = false || o.Key == some marker_key then none
  else some { key := o.Key.getD "", size := o.Size.getD 0,
              etag := o.ETag, last_modified := o.LastModified }

/-- The deterministic inventory snapshot: emitted items, sorted by key
(`inventory.sort(key=lambda x: x["key"])`). -/
def buildInventory (objects : List S3Object) (marker_key : String) : List InvItem :=
  (objects.filterMap (payloadItem marker_key)).mergeSort
    (fun a b => decide (a.key ≤ b.key))

/-- The validator's `stats` dict. -/
structure StatsV where
  object_count_including_marker : Nat
  payload_file_count : Nat
  max_keys_cap : Nat
deriving DecidableEq, Repr

/-- The dict returned by the validator (absent keys are `none`). -/
structure ValidateResult where
  ok : Bool
  validated_at : String
  reason : String
  errors : List String
  stats : Option StatsV := none
  inventory : Option (List InvItem) := none
deriving DecidableEq, Repr

/-- Embeds `handler` of `ingest-validate-files/handler.py`.  `pages` are the S3
listing pages; `bucket`, `folder_path`, `object_key` come from the event. -/
def ingest_validate_handler (maxKeys : Nat) (allowZero : Bool)
    (pages : List (List S3Object)) (clock : Nat → String)
    (bucket folder_path object_key : Option String) : ValidateResult :=
  if truthyS bucket = false || truthyS folder_path = false || truthyS object_key = false then
    { ok := false, validated_at := clock 0, reason := "INVALID_INPUT",
      errors := ["Missing required fields: bucket, folder_path, object_key"] }
  else
    let fp := folder_path.getD ""
    let marker_key := object_key.getD ""
    let pfx := if fp.data.getLast? = some '/' then fp else fp ++ "/"
    let objects := list_all_objects maxKeys pages
    if objects.length = 0 then
      { ok := false, validated_at := clock 0, reason := "FOLDER_NOT_FOUND_OR_EMPTY",
        errors := ["No objects found under prefix: " ++ pfx] }
    else
      let vr := validate_objects allowZero objects marker_key
      let inventory := buildInventory objects marker_key
      { ok := vr.1
        validated_at := clock 0
        reason := if vr.1 then "OK" else "FAILED_VALIDATION"
        errors := vr.2
        stats := some { object_count_including_marker := objects.length,
                        payload_file_count := inventory.length,
                        max_keys_cap := maxKeys }
        inventory := some inventory }

/-! ## Manifest writer: `ingest-write-manifest/handler.py` -/

/-- The manifest-writer event, with each dotted `get_in` path flattened to
a field (`impl_s3_pfx` models `impl.s3.prefix`, `vr_*` model
`validate_result.*`); `none` models a missing path.  A `some` stats value
models a non-empty stats dict (the validator always emits three keys), so
`some` is truthy for Python `or`. -/
structure WmEvent where
  job_id : Option String := none
  project_code : Option String := none
  bucket : Option String := none
  folder_path : Option String := none
  ruleset_version : Option String := none
  inventory : Option (List InvItem) := none
  stats : Option StatsV := none
  validated_at : Option String := none
  impl_s3_bucket : Option String := none
  impl_s3_pfx : Option String := none
  impl_s3_folder_path : Option String := none
  policy_ruleset_version : Option String := none
  vr_inventory : Option (List InvItem) := none
  vr_stats : Option StatsV := none
  vr_validated_at : Option String := none
deriving DecidableEq, Repr

/-- Python `a or b` on optional inventories (`None` and `[]` falsy). -/
def listOr (a b : Option (List InvItem)) : Option (List InvItem) :=
  match a with
  | some (x :: xs) => some (x :: xs)
  | _ => b

/-- Python `a or b` on optional (non-empty) stats dicts. -/
def statsOr (a b : Option StatsV) : Option StatsV :=
  match a with
  | some s => some s
  | none => b

/-- The resolved inputs of the manifest writer after its validation and
fallback steps. -/
structure WmCtx where
  job_id : String
  project_code : String
  bucket : String
  pfx : String
  ruleset_version : String
  inventory : List InvItem
  stats : Option StatsV
  validated_at_src : Option String
deriving DecidableEq, Repr

/-- Input resolution of `ingest-write-manifest/handler.py` (lines up to the
manifest assembly): mandatory identifiers, S3 location with `/`
normalization, ruleset default, inventory/stats fallbacks. -/
def wm_resolve (rulesetDefault : String) (ev : WmEvent) : Except PyError WmCtx :=
  if truthyS ev.job_id = false || truthyS ev.project_code = false then
    .error (.valueError "Missing required fields: job_id and project_code")
  else
    let bucket := strOr ev.impl_s3_bucket ev.bucket
    let pfx0 := strOr (strOr ev.impl_s3_pfx ev.folder_path) ev.impl_s3_folder_path
    if truthyS bucket = false || pfx0 = none then
      .error (.valueError
        "Missing required S3 location: impl.s3.bucket and impl.s3.prefix (or folder_path)")
    else
      let p := pfx0.getD ""
      let pfx := if p ≠ "" ∧ p.data.getLast? ≠ some '/' then p ++ "/" else p
      let ruleset := (strOr (strOr ev.policy_ruleset_version ev.ruleset_version)
        (some rulesetDefault)).getD rulesetDefault
      let inventory := (listOr ev.vr_inventory (listOr ev.inventory (some []))).getD []
      let stats := statsOr ev.vr_stats ev.stats
      .ok { job_id := ev.job_id.getD "", project_code := ev.project_code.getD "",
            bucket := bucket.getD "", pfx := pfx, ruleset_version := ruleset,
            inventory := inventory, stats := stats,
            validated_at_src := strOr ev.vr_validated_at ev.validated_at }

/-- The manifest document (its `state` dict flattened into
`state_name`/`state_reason`). -/
structure ManifestDoc where
  manifest_version : String
  job_id : String
  project_code : String
  ruleset_version : String
  ingest_folder : String
  impl_s3_bucket : String
  impl_s3_pfx : String
  state_name : String
  state_reason : String
  created_at : String
  validated_at : String
  inventory : List InvItem
  stats : Option StatsV
deriving DecidableEq, Repr

/-- The manifest dict assembled by the handler;
`created_at = utc_now_iso()`. -/
def build_manifest (ctx : WmCtx) (created_at : String) : ManifestDoc :=
  { manifest_version := "v1.0"
    job_id := ctx.job_id
    project_code := ctx.project_code
    ruleset_version := ctx.ruleset_version
    ingest_folder := "s3://" ++ ctx.bucket ++ "/" ++ ctx.pfx
    impl_s3_bucket := ctx.bucket
    impl_s3_pfx := ctx.pfx
    state_name := "VALIDATED"
    state_reason := "validation_succeeded"
    created_at := created_at
    validated_at := (strOr ctx.validated_at_src (some created_at)).getD created_at
    inventory := ctx.inventory
    stats := ctx.stats }

/-- The manifest object store: bucket and key to stored document. -/
abbrev S3Store := String → String → Option ManifestDoc

/-- Effect of `s3.put_object` on the store. -/
def s3PutDoc (store : S3Store) (bucket key : String) (doc : ManifestDoc) : S3Store :=
  fun b k => if b = bucket ∧ k = key then some doc else store b k

/-- Models `out_bucket = MANIFEST_BUCKET or bucket`. -/
def outBucketOf (manifestBucketEnv : Option String) (ctx : WmCtx) : String :=
  (strOr manifestBucketEnv (some ctx.bucket)).getD ctx.bucket

/-- Models `manifest_key = f"{project_code}/_manifests/{job_id}.json"`. -/
def manifestKeyOf (ctx : WmCtx) : String :=
  ctx.project_code ++ "/_manifests/" ++ ctx.job_id ++ ".json"

/-- The dict returned by the manifest writer. -/
structure WmResult where
  manifest_s3_uri : String
  manifest_bucket : String
  manifest_key : String
  manifest_version : String
deriving DecidableEq, Repr

/-- Embeds `handler` of `ingest-write-manifest/handler.py`.  `s3put` and `dbupd`
are the injected outcomes of the `put_object` and `update_item`
collaborator calls (the string is the stringified `ClientError`). -/
def write_manifest_handler (manifestBucketEnv : Option String) (rulesetDefault : String)
    (ev : WmEvent) (clock : Nat → String)
    (s3put : Except String Unit) (dbupd : Except String Unit)
    (jobs : Jobs) (store : S3Store) :
    Jobs × S3Store × Except PyError WmResult :=
  match wm_resolve rulesetDefault ev with
  | .error e => (jobs, store, .error e)
  | .ok ctx =>
    let created_at := clock 0
    let manifest := build_manifest ctx created_at
    let out_bucket := outBucketOf manifestBucketEnv ctx
    let manifest_key := manifestKeyOf ctx
    let manifest_s3_uri := "s3://" ++ out_bucket ++ "/" ++ manifest_key
    match s3put with
    | .error e =>
      (jobs, store, .error (.runtimeError
        ("Failed to write manifest to " ++ manifest_s3_uri ++ ": " ++ e)))
    | .ok _ =>
      let store' := s3PutDoc store out_bucket manifest_key manifest
      match dbupd with
      | .error e =>
        (jobs, store', .error (.runtimeError
          ("Manifest written but DynamoDB update failed: " ++ e)))
      | .ok _ =>
        let jobs' := dbPut jobs ctx.job_id
          { ((jobs ctx.job_id).getD {}) with
              manifest_s3_uri := some manifest_s3_uri
              manifest_bucket := some out_bucket
              manifest_key := some manifest_key
              updated_at := some created_at }
        (jobs', store', .ok { manifest_s3_uri := manifest_s3_uri
                              manifest_bucket := out_bucket
                              manifest_key := manifest_key
                              manifest_version := "v1.0" })

/-- Concrete manifest-writer event used by the C7/C10 witnesses. -/
def wmEv0 : WmEvent :=
  { job_id := some "j", project_code := some "p", bucket := some "b",
    folder_path := some "f/" }

/-- The resolution of `wmEv0` under ruleset default `"v1.0"`. -/
def wmCtx0 : WmCtx :=
  { job_id := "j", project_code := "p", bucket := "b", pfx := "f/",
    ruleset_version := "v1.0", inventory := [], stats := none,
    validated_at_src := none }

/-! ## Theorems -/

theorem utf8DecodeOne_encodeCp_append (c : Nat) (hc : c < 1114112) (l : List Nat) :
    utf8DecodeOne (utf8EncodeCp c ++ l) = some (c, l) := by
  unfold utf8EncodeCp
  by_cases h1 : c < 128
  · simp [h1, utf8DecodeOne]
  · rw [if_neg h1]
    by_cases h2 : c < 2048
    · rw [if_pos h2]
      have hb1 : ¬ (192 + c / 64 < 128) := by omega
      have hb2 : ¬ (192 + c / 64 < 192) := by omega
      have hb3 : 192 + c / 64 < 224 := by omega
      simp only [List.cons_append, utf8DecodeOne, hb1, hb2, hb3, if_true, if_false,
        ite_true, ite_false]
      simp only [Option.some.injEq, Prod.mk.injEq]
      exact ⟨by omega, rfl⟩
    · rw [if_neg h2]
      by_cases h3 : c < 65536
      · rw [if_pos h3]
        have hb1 : ¬ (224 + c / 4096 < 128) := by omega
        have hb2 : ¬ (224 + c / 4096 < 192) := by omega
        have hb3 : ¬ (224 + c / 4096 < 224) := by omega
        have hb4 : 224 + c / 4096 < 240 := by omega
        simp only [List.cons_append, utf8DecodeOne, hb1, hb2, hb3, hb4, if_true, if_false,
          ite_true, ite_false]
        simp only [Option.some.injEq, Prod.mk.injEq]
        exact ⟨by omega, rfl⟩
      · rw [if_neg h3]
        have hb1 : ¬ (240 + c / 262144 < 128) := by omega
        have hb2 : ¬ (240 + c / 262144 < 192) := by omega
        have hb3 : ¬ (240 + c / 262144 < 224) := by omega
        have hb4 : ¬ (240 + c / 262144 < 240) := by omega
        simp only [List.cons_append, utf8DecodeOne, hb1, hb2, hb3, hb4, if_true, if_false,
          ite_true, ite_false]
        simp only [Option.some.injEq, Prod.mk.injEq]
        exact ⟨by omega, rfl⟩

theorem utf8EncodeCp_ne_nil (c : Nat) : utf8EncodeCp c ≠ [] := by
  unfold utf8EncodeCp
  by_cases h1 : c < 128
  · simp [h1]
  · by_cases h2 : c < 2048 <;> by_cases h3 : c < 65536 <;> simp [h1, h2, h3]

theorem utf8DecodeFuel_encodeList : ∀ (l : List Nat) (fuel : Nat),
    (∀ c ∈ l, c < 1114112) → (utf8EncodeList l).length ≤ fuel →
    utf8DecodeFuel fuel (utf8EncodeList l) = some l := by
  intro l
  induction l with
  | nil =>
    intro fuel _ _
    cases fuel <;> simp [utf8DecodeFuel, utf8EncodeList]
  | cons c l ih =>
    intro fuel hv hf
    have hc : c < 1114112 := hv c (List.mem_cons_self c l)
    have hrest : ∀ x ∈ l, x < 1114112 := fun x hx => hv x (List.mem_cons_of_mem c hx)
    have hsplit : utf8EncodeList (c :: l) = utf8EncodeCp c ++ utf8EncodeList l := by
      simp [utf8EncodeList]
    have hlen1 : 1 ≤ (utf8EncodeCp c).length := by
      cases he : utf8EncodeCp c with
      | nil => exact absurd he (utf8EncodeCp_ne_nil c)
      | cons _ _ => simp
    have hlen : (utf8EncodeList (c :: l)).length
        = (utf8EncodeCp c).length + (utf8EncodeList l).length := by
      rw [hsplit, List.length_append]
    cases fuel with
    | zero => omega
    | succ k =>
      obtain ⟨b, rest, hbr⟩ : ∃ b rest, utf8EncodeList (c :: l) = b :: rest := by
        cases he : utf8EncodeList (c :: l) with
        | nil => rw [he] at hlen; simp at hlen; omega
        | cons b rest => exact ⟨b, rest, rfl⟩
      rw [hbr]
      show (match utf8DecodeOne (b :: rest) with
        | none => none
        | some (c, rest2) => (utf8DecodeFuel k rest2).map (c :: ·)) = some (c :: l)
      rw [← hbr, hsplit, utf8DecodeOne_encodeCp_append c hc]
      show (utf8DecodeFuel k (utf8EncodeList l)).map (c :: ·) = some (c :: l)
      rw [ih k hrest (by omega)]
      rfl

theorem utf8EncodeList_injective {l1 l2 : List Nat}
    (h1 : ∀ c ∈ l1, c < 1114112) (h2 : ∀ c ∈ l2, c < 1114112)
    (he : utf8EncodeList l1 = utf8EncodeList l2) : l1 = l2 := by
  have hlen : (utf8EncodeList l1).length = (utf8EncodeList l2).length := by rw [he]
  have d1 := utf8DecodeFuel_encodeList l1 (utf8EncodeList l2).length h1 (Nat.le_of_eq hlen)
  have d2 := utf8DecodeFuel_encodeList l2 (utf8EncodeList l2).length h2 (Nat.le_refl _)
  rw [he] at d1
  rw [d2] at d1
  exact (Option.some_inj.mp d1).symm

theorem char_toNat_lt (c : Char) : c.toNat < 1114112 := by
  rcases c.valid with h | ⟨_, h⟩
  · exact Nat.lt_trans h (by decide)
  · exact h

theorem char_toNat_injective {c1 c2 : Char} (h : c1.toNat = c2.toNat) : c1 = c2 := by
  cases c1; cases c2
  simp only [Char.toNat] at h
  have := UInt32.toNat.inj h
  subst this
  rfl

theorem utf8Bytes_eq_encodeList (s : String) :
    utf8Bytes s = utf8EncodeList (s.data.map Char.toNat) := by
  rw [utf8Bytes, utf8EncodeList, List.flatMap_map]

theorem utf8Bytes_injective {s1 s2 : String} (h : utf8Bytes s1 = utf8Bytes s2) :
    s1 = s2 := by
  rw [utf8Bytes_eq_encodeList, utf8Bytes_eq_encodeList] at h
  have hmap := utf8EncodeList_injective
    (by intro c hc; obtain ⟨ch, _, rfl⟩ := List.mem_map.mp hc; exact char_toNat_lt ch)
    (by intro c hc; obtain ⟨ch, _, rfl⟩ := List.mem_map.mp hc; exact char_toNat_lt ch) h
  have hdata : s1.data = s2.data :=
    List.map_injective_iff.mpr (fun _ _ => char_toNat_injective) hmap
  exact congrArg String.mk hdata

theorem hexVal_hexDigitChar : ∀ d < 16, hexVal (hexDigitChar d) = d := by decide

theorem hexToBytes_bytesToHex (bs : List Nat) (h : ∀ b ∈ bs, b < 256) :
    hexToBytes (bytesToHex bs) = some bs := by
  induction bs with
  | nil => rfl
  | cons b l ih =>
    have hb : b < 256 := h b (List.mem_cons_self b l)
    have hrest : ∀ x ∈ l, x < 256 := fun x hx => h x (List.mem_cons_of_mem b hx)
    have hcons : bytesToHex (b :: l)
        = hexDigitChar (b / 16) :: hexDigitChar (b % 16) :: bytesToHex l := rfl
    rw [hcons, hexToBytes, ih hrest]
    have hv : hexVal (hexDigitChar (b / 16)) * 16 + hexVal (hexDigitChar (b % 16)) = b := by
      rw [hexVal_hexDigitChar (b / 16) (by omega), hexVal_hexDigitChar (b % 16) (by omega)]
      omega
    show some ((hexVal (hexDigitChar (b / 16)) * 16 + hexVal (hexDigitChar (b % 16))) :: l)
      = some (b :: l)
    rw [hv]

theorem sha256_bytes_lt (msg : List Nat) : ∀ b ∈ sha256 msg, b < 256 := by
  intro b hb
  simp only [sha256, List.mem_flatMap, wordBytes] at hb
  obtain ⟨w, _, hw⟩ := hb
  simp only [List.mem_cons, List.not_mem_nil, or_false] at hw
  rcases hw with rfl | rfl | rfl | rfl <;> omega

theorem sha256hex_digest_eq {m1 m2 : List Nat} (h : sha256hex m1 = sha256hex m2) :
    sha256 m1 = sha256 m2 := by
  have hdata : bytesToHex (sha256 m1) = bytesToHex (sha256 m2) := congrArg String.data h
  have := hexToBytes_bytesToHex (sha256 m1) (sha256_bytes_lt m1)
  rw [hdata, hexToBytes_bytesToHex (sha256 m2) (sha256_bytes_lt m2)] at this
  exact (Option.some_inj.mp this).symm

/-! ## The raw string `project_code ++ ":" ++ folder_path` -/

theorem sep_append_injective {l1 r1 l2 r2 : List Char}
    (h1 : ':' ∉ l1) (h2 : ':' ∉ l2)
    (he : l1 ++ ':' :: r1 = l2 ++ ':' :: r2) : l1 = l2 ∧ r1 = r2 := by
  induction l1 generalizing l2 with
  | nil =>
    cases l2 with
    | nil => simpa using he
    | cons c l2 =>
      simp only [List.nil_append, List.cons_append, List.cons.injEq] at he
      exact absurd (he.1 ▸ List.mem_cons_self c l2) h2
  | cons c l1 ih =>
    cases l2 with
    | nil =>
      simp only [List.cons_append, List.nil_append, List.cons.injEq] at he
      exact absurd (he.1 ▸ List.mem_cons_self c l1) h1
    | cons c' l2 =>
      simp only [List.cons_append, List.cons.injEq] at he
      obtain ⟨rfl, he⟩ := he
      have := ih (fun hm => h1 (List.mem_cons_of_mem _ hm))
        (fun hm => h2 (List.mem_cons_of_mem _ hm)) he
      exact ⟨by rw [this.1], this.2⟩

theorem rawJobString_data (p f : String) :
    (rawJobString p f).data = p.data ++ ':' :: f.data := by
  simp [rawJobString, String.data_append]

theorem rawJobString_injective {p1 f1 p2 f2 : String}
    (h1 : ':' ∉ p1.data) (h2 : ':' ∉ p2.data)
    (he : rawJobString p1 f1 = rawJobString p2 f2) : p1 = p2 ∧ f1 = f2 := by
  have hd : p1.data ++ ':' :: f1.data = p2.data ++ ':' :: f2.data := by
    have := congrArg String.data he
    rwa [rawJobString_data, rawJobString_data] at this
  obtain ⟨hp, hf⟩ := sep_append_injective h1 h2 hd
  exact ⟨congrArg String.mk hp, congrArg String.mk hf⟩

/-- C1 counterexample: the pairs `("a:b", "c/")` and `("a", "b:c/")` are
distinct, yet `generate_job_id` gives them the identical job id because the
concatenated strings `project_code + ":" + folder_path` coincide — the SHA-256
inputs are the very same string, so no SHA-256 collision is involved.  This
refutes the claim that distinct pairs yield distinct ids unless a SHA-256
collision occurs. -/
theorem C1_counterexample :
    (("a:b", "c/") ≠ (("a" : String), ("b:c/" : String)))
    ∧ rawJobString "a:b" "c/" = rawJobString "a" "b:c/"
    ∧ generate_job_id "a:b" "c/" = generate_job_id "a" "b:c/" := by
  refine ⟨by decide, by decide, ?_⟩
  have h : rawJobString "a:b" "c/" = rawJobString "a" "b:c/" := by decide
  show sha256hex (utf8Bytes (rawJobString "a:b" "c/"))
    = sha256hex (utf8Bytes (rawJobString "a" "b:c/"))
  rw [h]

/-- C1 (amended): for every pair, the job id equals the SHA-256 hex digest of
`project_code + ":" + folder_path` (hence is deterministic and of fixed
length); for distinct pairs whose project codes are free of `':'` the
concatenated strings always differ; and in general two distinct pairs receive
the same id only when either the concatenated strings coincide (possible when
a project code contains `':'`) or SHA-256 collides on the two distinct UTF-8
encodings. -/
theorem C1_job_id_deterministic_hash (p1 f1 p2 f2 : String)
    (hne : (p1, f1) ≠ (p2, f2)) :
    generate_job_id p1 f1 = sha256hex (utf8Bytes (p1 ++ ":" ++ f1))
    ∧ (':' ∉ p1.data → ':' ∉ p2.data → rawJobString p1 f1 ≠ rawJobString p2 f2)
    ∧ (rawJobString p1 f1 = rawJobString p2 f2
       ∨ (utf8Bytes (rawJobString p1 f1) ≠ utf8Bytes (rawJobString p2 f2)
          ∧ (generate_job_id p1 f1 = generate_job_id p2 f2 →
             sha256 (utf8Bytes (rawJobString p1 f1))
               = sha256 (utf8Bytes (rawJobString p2 f2))))) := by
  refine ⟨rfl, ?_, ?_⟩
  · intro hc1 hc2 heq
    obtain ⟨hp, hf⟩ := rawJobString_injective hc1 hc2 heq
    exact hne (by rw [hp, hf])
  · by_cases hraw : rawJobString p1 f1 = rawJobString p2 f2
    · exact Or.inl hraw
    · refine Or.inr ⟨fun h => hraw (utf8Bytes_injective h), fun hid => ?_⟩
      exact sha256hex_digest_eq hid

theorem C1_job_id_deterministic_hash_witness :
    (("p", "p/a/") ≠ (("p" : String), ("p/b/" : String)))
    ∧ (generate_job_id "p" "p/a/" = sha256hex (utf8Bytes ("p" ++ ":" ++ "p/a/"))
       ∧ (':' ∉ "p".data → ':' ∉ "p".data →
            rawJobString "p" "p/a/" ≠ rawJobString "p" "p/b/")
       ∧ (rawJobString "p" "p/a/" = rawJobString "p" "p/b/"
          ∨ (utf8Bytes (rawJobString "p" "p/a/") ≠ utf8Bytes (rawJobString "p" "p/b/")
             ∧ (generate_job_id "p" "p/a/" = generate_job_id "p" "p/b/" →
                sha256 (utf8Bytes (rawJobString "p" "p/a/"))
                  = sha256 (utf8Bytes (rawJobString "p" "p/b/")))))) :=
  ⟨by decide, C1_job_id_deterministic_hash "p" "p/a/" "p" "p/b/" (by decide)⟩

/-- C2: when the conditional create observes an existing record for the
derived job id, the handler updates only `last_seen_at` and
`last_seen_object_key` on that record (all other fields, in particular
`state` and `state_history`, are carried over unchanged from the old
record), touches no other record, starts no execution, and returns the
duplicate-status dict carrying the job id. -/
theorem C2_duplicate_updates_only_last_seen
    (arn : String) (jobs : Jobs) (sfn : SfnOutcome) (clock : Nat → String)
    (bucket object_key fp jid : String) (rest : List (String × String)) (r : JobRecord)
    (harn : arn.isEmpty = false)
    (hmarker : "_INGEST_DONE".data.isSuffixOf object_key.data = true)
    (hslash : object_key.data.contains '/' = true)
    (hfp : fp = folderPathOf object_key)
    (hjid : jid = generate_job_id (projectCodeOf fp) fp)
    (hexists : jobs jid = some r) :
    (intake_handler (some arn) jobs sfn clock ((bucket, object_key) :: rest)).2.1 = []
    ∧ (intake_handler (some arn) jobs sfn clock ((bucket, object_key) :: rest)).2.2
        = .ok { status := "duplicate_ingest_done_ignored"
                job_id := some jid
                ingest_folder := some ("s3://" ++ bucket ++ "/" ++ fp) }
    ∧ (intake_handler (some arn) jobs sfn clock ((bucket, object_key) :: rest)).1 jid
        = some { r with last_seen_at := some (clock 1)
                        last_seen_object_key := some object_key }
    ∧ (∀ k, k ≠ jid →
        (intake_handler (some arn) jobs sfn clock ((bucket, object_key) :: rest)).1 k
          = jobs k) := by
  subst hfp
  subst hjid
  simp only [intake_handler, harn, hmarker, hslash, hexists, Bool.false_eq_true,
    if_false, if_true, ite_false, ite_true]
  refine ⟨trivial, trivial, ?_, ?_⟩
  · simp [dbPut]
  · intro k hk
    simp [dbPut, hk]

theorem C2_duplicate_updates_only_last_seen_witness :
    ("x".isEmpty = false
     ∧ "_INGEST_DONE".data.isSuffixOf "p/x/_INGEST_DONE".data = true
     ∧ "p/x/_INGEST_DONE".data.contains '/' = true
     ∧ "p/x/" = folderPathOf "p/x/_INGEST_DONE")
    ∧ ((intake_handler (some "x")
          (fun k => if k = generate_job_id (projectCodeOf "p/x/") "p/x/"
                    then some { state := some "CREATED" } else none)
          (.started none) (fun _ => "T") [("b", "p/x/_INGEST_DONE")]).2.1 = []
       ∧ (intake_handler (some "x")
          (fun k => if k = generate_job_id (projectCodeOf "p/x/") "p/x/"
                    then some { state := some "CREATED" } else none)
          (.started none) (fun _ => "T") [("b", "p/x/_INGEST_DONE")]).2.2
          = .ok { status := "duplicate_ingest_done_ignored"
                  job_id := some (generate_job_id (projectCodeOf "p/x/") "p/x/")
                  ingest_folder := some ("s3://" ++ "b" ++ "/" ++ "p/x/") }
       ∧ (intake_handler (some "x")
          (fun k => if k = generate_job_id (projectCodeOf "p/x/") "p/x/"
                    then some { state := some "CREATED" } else none)
          (.started none) (fun _ => "T") [("b", "p/x/_INGEST_DONE")]).1
            (generate_job_id (projectCodeOf "p/x/") "p/x/")
          = some { ({ state := some "CREATED" } : JobRecord) with
                    last_seen_at := some "T"
                    last_seen_object_key := some "p/x/_INGEST_DONE" }
       ∧ (∀ k, k ≠ generate_job_id (projectCodeOf "p/x/") "p/x/" →
           (intake_handler (some "x")
            (fun k => if k = generate_job_id (projectCodeOf "p/x/") "p/x/"
                      then some { state := some "CREATED" } else none)
            (.started none) (fun _ => "T") [("b", "p/x/_INGEST_DONE")]).1 k
            = (fun k => if k = generate_job_id (projectCodeOf "p/x/") "p/x/"
                        then some ({ state := some "CREATED" } : JobRecord) else none) k)) :=
  ⟨⟨by decide, by decide, by decide, by decide⟩,
    C2_duplicate_updates_only_last_seen "x"
      (fun k => if k = generate_job_id (projectCodeOf "p/x/") "p/x/"
                then some { state := some "CREATED" } else none)
      (.started none) (fun _ => "T") "b" "p/x/_INGEST_DONE" "p/x/"
      (generate_job_id (projectCodeOf "p/x/") "p/x/") [] { state := some "CREATED" }
      (by decide) (by decide) (by decide) (by decide) rfl
      (by simp)⟩

theorem update_job_state_step (jobs : Jobs) (ev : UpdateEvent) (ts j s : String) (r : JobRecord)
    (hres : resolve_ids ev = some (j, s)) (hold : jobs j = some r) :
    update_job_state jobs ev ts
      = .ok (dbPut jobs j
          { r with state := some s
                   updated_at := some ts
                   state_history := some ((r.state_history.getD [])
                     ++ [historyEntryOf ev ts s]) },
          { ok := true, job_id := j, new_state := s, updated_at := ts }) := by
  simp [update_job_state, hres, hold]

theorem run_updates_general :
    ∀ (calls : List (UpdateEvent × String)) (jobs : Jobs) (j : String) (r : JobRecord),
    (∀ c ∈ calls, ∃ s, resolve_ids c.1 = some (j, s)) → jobs j = some r →
    ∃ jobs' r', run_updates jobs calls = .ok jobs' ∧ jobs' j = some r'
      ∧ r'.state_history.getD []
          = r.state_history.getD []
            ++ calls.map (fun c => historyEntryOf c.1 c.2 (callTarget j c))
      ∧ r'.state = (calls.map (callTarget j)).foldl (fun _ t => some t) r.state := by
  intro calls
  induction calls with
  | nil =>
    intro jobs j r _ hold
    exact ⟨jobs, r, rfl, hold, by simp, by simp⟩
  | cons c rest ih =>
    intro jobs j r hall hold
    obtain ⟨ev, ts⟩ := c
    obtain ⟨s, hres⟩ := hall (ev, ts) (List.mem_cons_self _ _)
    have hstep := update_job_state_step jobs ev ts j s r hres hold
    have htgt : callTarget j (ev, ts) = s := by simp [callTarget, hres]
    set r1 : JobRecord :=
      { r with state := some s
               updated_at := some ts
               state_history := some ((r.state_history.getD [])
                 ++ [historyEntryOf ev ts s]) } with hr1
    have hold1 : dbPut jobs j r1 j = some r1 := by simp [dbPut]
    obtain ⟨jobs', r', hrun, hat, hhist, hstate⟩ :=
      ih (dbPut jobs j r1) j r1
        (fun c hc => hall c (List.mem_cons_of_mem _ hc)) hold1
    refine ⟨jobs', r', ?_, hat, ?_, ?_⟩
    · show run_updates jobs ((ev, ts) :: rest) = .ok jobs'
      simp only [run_updates, hstep]
      exact hrun
    · rw [List.map_cons, htgt]
      rw [hhist, hr1]
      simp
    · rw [List.map_cons, htgt, List.foldl_cons]
      rw [hstate, hr1]

theorem foldl_replace_getLast? (l : List String) (init : Option String) (t : String)
    (h : l.getLast? = some t) :
    l.foldl (fun _ x => (some x : Option String)) init = some t := by
  induction l generalizing init with
  | nil => simp at h
  | cons a l ih =>
    cases l with
    | nil =>
      simp at h
      simp [h]
    | cons b l =>
      rw [List.getLast?_cons_cons] at h
      rw [List.foldl_cons]
      exact ih (some a) h

/-- C3: a sequence of `M` successful state-transition calls against one job
record whose history starts empty leaves `state_history` as the ordered
list of the `M` appended entries (length exactly `M`, one entry per call,
duplicates preserved), leaves `state` at the last call's target, and each
single call performs the state set, `updated_at` set, and one-entry history
append as one atomic record replacement. -/
theorem C3_history_append_only
    (calls : List (UpdateEvent × String)) (jobs : Jobs) (j : String) (r : JobRecord)
    (hall : ∀ c ∈ calls, ∃ s, resolve_ids c.1 = some (j, s))
    (hold : jobs j = some r)
    (hfresh : r.state_history.getD [] = []) :
    (∃ jobs' r', run_updates jobs calls = .ok jobs' ∧ jobs' j = some r'
      ∧ r'.state_history.getD []
          = calls.map (fun c => historyEntryOf c.1 c.2 (callTarget j c))
      ∧ (r'.state_history.getD []).length = calls.length
      ∧ (∀ t, (calls.map (callTarget j)).getLast? = some t → r'.state = some t))
    ∧ (∀ (jobs₀ : Jobs) (ev : UpdateEvent) (ts j₀ s₀ : String) (r₀ : JobRecord),
        resolve_ids ev = some (j₀, s₀) → jobs₀ j₀ = some r₀ →
        update_job_state jobs₀ ev ts
          = .ok (dbPut jobs₀ j₀
              { r₀ with state := some s₀
                        updated_at := some ts
                        state_history := some ((r₀.state_history.getD [])
                          ++ [historyEntryOf ev ts s₀]) },
              { ok := true, job_id := j₀, new_state := s₀, updated_at := ts })) := by
  constructor
  · obtain ⟨jobs', r', hrun, hat, hhist, hstate⟩ := run_updates_general calls jobs j r hall hold
    rw [hfresh, List.nil_append] at hhist
    refine ⟨jobs', r', hrun, hat, hhist, by rw [hhist, List.length_map], ?_⟩
    intro t ht
    rw [hstate]
    exact foldl_replace_getLast? _ _ t ht
  · intro jobs₀ ev ts j₀ s₀ r₀ hres₀ hold₀
    exact update_job_state_step jobs₀ ev ts j₀ s₀ r₀ hres₀ hold₀

theorem C3_history_append_only_witness :
    ((∀ c ∈ [({ job_id := some "j", new_state := some "S" : UpdateEvent }, "t1"),
             ({ job_id := some "j", new_state := some "S" : UpdateEvent }, "t2")],
        ∃ s, resolve_ids c.1 = some ("j", s))
     ∧ (fun k => if k = "j" then some ({} : JobRecord) else none) "j" = some {}
     ∧ (({} : JobRecord).state_history.getD [] = []))
    ∧ ((∃ jobs' r', run_updates (fun k => if k = "j" then some ({} : JobRecord) else none)
          [({ job_id := some "j", new_state := some "S" : UpdateEvent }, "t1"),
           ({ job_id := some "j", new_state := some "S" : UpdateEvent }, "t2")] = .ok jobs'
        ∧ jobs' "j" = some r'
        ∧ r'.state_history.getD []
            = [({ job_id := some "j", new_state := some "S" : UpdateEvent }, "t1"),
               ({ job_id := some "j", new_state := some "S" : UpdateEvent }, "t2")].map
                (fun c => historyEntryOf c.1 c.2 (callTarget "j" c))
        ∧ (r'.state_history.getD []).length
            = [({ job_id := some "j", new_state := some "S" : UpdateEvent }, "t1"),
               ({ job_id := some "j", new_state := some "S" : UpdateEvent }, "t2")].length
        ∧ (∀ t, ([({ job_id := some "j", new_state := some "S" : UpdateEvent }, "t1"),
                  ({ job_id := some "j", new_state := some "S" : UpdateEvent }, "t2")].map
                   (callTarget "j")).getLast? = some t → r'.state = some t))
       ∧ (∀ (jobs₀ : Jobs) (ev : UpdateEvent) (ts j₀ s₀ : String) (r₀ : JobRecord),
           resolve_ids ev = some (j₀, s₀) → jobs₀ j₀ = some r₀ →
           update_job_state jobs₀ ev ts
             = .ok (dbPut jobs₀ j₀
                 { r₀ with state := some s₀
                           updated_at := some ts
                           state_history := some ((r₀.state_history.getD [])
                             ++ [historyEntryOf ev ts s₀]) },
                 { ok := true, job_id := j₀, new_state := s₀, updated_at := ts }))) := by
  have hall : ∀ c ∈ [({ job_id := some "j", new_state := some "S" : UpdateEvent }, "t1"),
      ({ job_id := some "j", new_state := some "S" : UpdateEvent }, "t2")],
      ∃ s, resolve_ids c.1 = some ("j", s) := by
    intro c hc
    simp only [List.mem_cons, List.not_mem_nil, or_false] at hc
    rcases hc with rfl | rfl
    · exact ⟨"S", by decide⟩
    · exact ⟨"S", by decide⟩
  refine ⟨⟨hall, by simp, by decide⟩, ?_⟩
  exact C3_history_append_only
    [({ job_id := some "j", new_state := some "S" : UpdateEvent }, "t1"),
     ({ job_id := some "j", new_state := some "S" : UpdateEvent }, "t2")]
    (fun k => if k = "j" then some ({} : JobRecord) else none) "j" {}
    hall (by simp) (by decide)

/-- C5: the claim says absent optional context fields are omitted from the
stored history entry entirely.  The code instead always places every
optional key in `history_entry`, with Python `None` (serialized by boto3 as
a DynamoDB `NULL` attribute) when the field is absent — despite the
handler's own comment "Only set fields if they are not None (avoids writing
NULL)".  Evaluated at the failing input (a request with only `job_id` and
`new_state`): every optional field of the stored entry is the `NULL`
placeholder, not absent. -/
theorem C5_null_placeholder_failing_input :
    ((update_job_state (fun _ => some ({} : JobRecord))
        { job_id := some "j", new_state := some "S" } "T").toOption.map
          (fun p => p.1 "j"))
      = some (some
          { state := some "S", updated_at := some "T",
            state_history := some
              [{ atTime := "T", toState := "S", byAttr := "stepfunctions",
                 project_code := AttrOpt.nullV, trigger := AttrOpt.nullV,
                 execution_id := AttrOpt.nullV, entered_time := AttrOpt.nullV,
                 ruleset_version := AttrOpt.nullV }] })
    ∧ AttrOpt.nullV ≠ AttrOpt.absent :=
  ⟨by decide, by decide⟩

theorem list_go_spec (maxKeys : Nat) :
    ∀ (pages : List (List S3Object)) (acc : List S3Object), acc.length ≤ maxKeys →
    list_all_objects_go maxKeys pages acc
      = if maxKeys ≤ (acc ++ pages.flatten).length
        then (acc ++ pages.flatten).take maxKeys
        else acc ++ pages.flatten := by
  intro pages
  induction pages with
  | nil =>
    intro acc hacc
    simp only [list_all_objects_go, List.flatten_nil, List.append_nil]
    by_cases h : maxKeys ≤ acc.length
    · rw [if_pos h]
      have heq : acc.length = maxKeys := Nat.le_antisymm hacc h
      rw [List.take_of_length_le (Nat.le_of_eq heq)]
    · rw [if_neg h]
  | cons contents rest ih =>
    intro acc hacc
    simp only [list_all_objects_go]
    by_cases h : maxKeys ≤ (acc ++ contents).length
    · rw [if_pos h]
      have hlen : maxKeys ≤ (acc ++ (contents :: rest).flatten).length := by
        rw [List.length_append] at h
        rw [List.flatten_cons, List.length_append, List.length_append]
        omega
      rw [if_pos hlen, List.flatten_cons, ← List.append_assoc]
      exact (List.take_append_of_le_length h).symm
    · rw [if_neg h]
      cases rest with
      | nil =>
        show acc ++ contents
          = if maxKeys ≤ (acc ++ [contents].flatten).length
            then (acc ++ [contents].flatten).take maxKeys else acc ++ [contents].flatten
        rw [List.flatten_cons, List.flatten_nil, List.append_nil, if_neg h]
      | cons p ps =>
        show list_all_objects_go maxKeys (p :: ps) (acc ++ contents)
          = if maxKeys ≤ (acc ++ (contents :: p :: ps).flatten).length
            then (acc ++ (contents :: p :: ps).flatten).take maxKeys
            else acc ++ (contents :: p :: ps).flatten
        rw [ih (acc ++ contents) (by rw [List.length_append] at h; rw [List.length_append]; omega)]
        simp [List.append_assoc]

/-- C9: `list_all_objects` never returns more than `max_keys` objects; when
the accumulated listing reaches or exceeds the cap it stops and returns
exactly the first `max_keys` listed objects (a truncation, not a
rejection), and otherwise it returns the full listing. -/
theorem C9_listing_cap_truncates (maxKeys : Nat) (pages : List (List S3Object)) :
    (list_all_objects maxKeys pages).length ≤ maxKeys
    ∧ (maxKeys ≤ pages.flatten.length →
        list_all_objects maxKeys pages = pages.flatten.take maxKeys)
    ∧ (pages.flatten.length < maxKeys →
        list_all_objects maxKeys pages = pages.flatten) := by
  have hspec := list_go_spec maxKeys pages [] (by simp)
  rw [List.nil_append] at hspec
  rw [list_all_objects]
  refine ⟨?_, ?_, ?_⟩
  · rw [hspec]
    by_cases h : maxKeys ≤ pages.flatten.length
    · rw [if_pos h, List.length_take]
      omega
    · rw [if_neg h]
      omega
  · intro h
    rw [hspec, if_pos h]
  · intro h
    rw [hspec, if_neg (by omega)]

theorem objErrors_length (allowZero : Bool) (o : S3Object) :
    (objErrors allowZero o).length = objectDefects allowZero o := by
  unfold objErrors objectDefects
  by_cases hk : truthyS o.Key = false
  · rw [if_pos hk, if_pos hk]
    rfl
  · rw [if_neg hk, if_neg hk]
    rcases o.Size with _ | n
    · by_cases he : truthyS o.ETag = false <;> simp [he]
    · by_cases hz : allowZero = false ∧ n = 0 <;> by_cases he : truthyS o.ETag = false <;>
        simp [hz, he]

theorem length_flatMap_sum {α β : Type} (l : List α) (f : α → List β) :
    (l.flatMap f).length = (l.map (fun a => (f a).length)).sum := by
  induction l with
  | nil => simp
  | cons a l ih => simp [ih]

/-- C6 counterexample: the object `{Size: 1}` (no `Key`, no `ETag`) exhibits
two of the claim's listed defect kinds (missing key and missing integrity
fingerprint), yet `validate_objects` records exactly one itemized error for
it, because the loop `continue`s after the missing-key error. -/
theorem C6_counterexample :
    defectCountSpec false { Key := none, Size := some 1, ETag := none } = 2
    ∧ (validate_objects false [{ Key := none, Size := some 1, ETag := none }] "m").1 = false
    ∧ (validate_objects false [{ Key := none, Size := some 1, ETag := none }] "m").2
        = ["BAD_OBJECT: missing Key"] :=
  ⟨by decide, by decide, by decide⟩

/-- C6 (amended): for a non-empty payload set, `validate_objects` returns
one itemized error per recorded defect across all payload objects — never
stopping at the first — where an object with a missing/empty key counts
exactly one defect (its size and fingerprint checks are skipped) and
otherwise the size and fingerprint checks count independently; `ok` is true
exactly when the total defect count is zero. -/
theorem C6_itemized_error_count (allowZero : Bool) (objects : List S3Object)
    (marker_key : String) (hne : payloadOf marker_key objects ≠ []) :
    (validate_objects allowZero objects marker_key).2.length
        = ((payloadOf marker_key objects).map (objectDefects allowZero)).sum
    ∧ ((validate_objects allowZero objects marker_key).1 = true
        ↔ ((payloadOf marker_key objects).map (objectDefects allowZero)).sum = 0) := by
  have hlen0 : ¬ ((payloadOf marker_key objects).length = 0) := by
    simpa [List.length_eq_zero] using hne
  have hfun : (fun o => (objErrors allowZero o).length) = objectDefects allowZero :=
    funext (objErrors_length allowZero)
  have herr : (validate_objects allowZero objects marker_key).2
      = (payloadOf marker_key objects).flatMap (objErrors allowZero) := by
    simp only [validate_objects, if_neg hlen0]
  have hok : (validate_objects allowZero objects marker_key).1
      = ((payloadOf marker_key objects).flatMap (objErrors allowZero)).isEmpty := by
    simp only [validate_objects, if_neg hlen0]
  constructor
  · rw [herr, length_flatMap_sum, hfun]
  · rw [hok, List.isEmpty_iff, ← List.length_eq_zero, length_flatMap_sum, hfun]

theorem C6_itemized_error_count_witness :
    (payloadOf "m" [{ Key := some "k", Size := some 0, ETag := none }] ≠ [])
    ∧ ((validate_objects false [{ Key := some "k", Size := some 0, ETag := none }] "m").2.length
        = ((payloadOf "m" [{ Key := some "k", Size := some 0, ETag := none }]).map
            (objectDefects false)).sum
       ∧ ((validate_objects false [{ Key := some "k", Size := some 0, ETag := none }] "m").1 = true
        ↔ ((payloadOf "m" [{ Key := some "k", Size := some 0, ETag := none }]).map
            (objectDefects false)).sum = 0)) :=
  ⟨by decide,
   C6_itemized_error_count false [{ Key := some "k", Size := some 0, ETag := none }] "m"
     (by decide)⟩

/-- C8: on every run that reaches the final return, the handler's inventory
is exactly `buildInventory` of the listing; that inventory is a permutation
of the emitted payload items (every listed object with a truthy key other
than the marker), is sorted ascending by key, and is a function of the
listing (identical listings give identical inventories). -/
theorem C8_inventory_deterministic_sorted (maxKeys : Nat) (allowZero : Bool)
    (pages : List (List S3Object)) (clock : Nat → String)
    (objects : List S3Object) (bucket fp mk : String)
    (hb : bucket.isEmpty = false) (hf : fp.isEmpty = false) (hm : mk.isEmpty = false)
    (hobj : list_all_objects maxKeys pages = objects) (hne : objects.length ≠ 0) :
    (ingest_validate_handler maxKeys allowZero pages clock
        (some bucket) (some fp) (some mk)).inventory = some (buildInventory objects mk)
    ∧ (buildInventory objects mk).Perm (objects.filterMap (payloadItem mk))
    ∧ List.Pairwise (fun a b : InvItem => a.key ≤ b.key) (buildInventory objects mk)
    ∧ (∀ objects2, objects2 = objects → buildInventory objects2 mk = buildInventory objects mk) := by
  refine ⟨?_, ?_, ?_, ?_⟩
  · simp only [ingest_validate_handler, truthyS, hb, hf, hm, hobj, Bool.not_false,
      Bool.false_eq_true, if_neg hne, Bool.or_self, if_false, ite_false]
    simp [hne]
  · exact List.mergeSort_perm _ _
  · unfold buildInventory
    exact List.Pairwise.imp (fun h => by simpa using h)
      (List.sorted_mergeSort
        (fun a b c hab hbc => by
          simp only [decide_eq_true_eq] at hab hbc ⊢
          exact le_trans hab hbc)
        (fun a b => by
          rcases le_total a.key b.key with h | h <;> simp [h])
        (objects.filterMap (payloadItem mk)))
  · intro objects2 h2
    rw [h2]

theorem C8_inventory_deterministic_sorted_witness :
    (("b" : String).isEmpty = false ∧ ("p/" : String).isEmpty = false
      ∧ ("p/_INGEST_DONE" : String).isEmpty = false
      ∧ list_all_objects 5000 [[{ Key := some "p/_INGEST_DONE" },
          { Key := some "p/a.txt", Size := some 3, ETag := some "e" }]]
          = [{ Key := some "p/_INGEST_DONE" },
             { Key := some "p/a.txt", Size := some 3, ETag := some "e" }]
      ∧ ([{ Key := some "p/_INGEST_DONE" },
          { Key := some "p/a.txt", Size := some 3, ETag := some "e" }] : List S3Object).length ≠ 0)
    ∧ ((ingest_validate_handler 5000 false [[{ Key := some "p/_INGEST_DONE" },
          { Key := some "p/a.txt", Size := some 3, ETag := some "e" }]] (fun _ => "T")
          (some "b") (some "p/") (some "p/_INGEST_DONE")).inventory
        = some (buildInventory [{ Key := some "p/_INGEST_DONE" },
            { Key := some "p/a.txt", Size := some 3, ETag := some "e" }] "p/_INGEST_DONE")
       ∧ (buildInventory [{ Key := some "p/_INGEST_DONE" },
            { Key := some "p/a.txt", Size := some 3, ETag := some "e" }] "p/_INGEST_DONE").Perm
           ([{ Key := some "p/_INGEST_DONE" },
             { Key := some "p/a.txt", Size := some 3, ETag := some "e" }].filterMap
              (payloadItem "p/_INGEST_DONE"))
       ∧ List.Pairwise (fun a b : InvItem => a.key ≤ b.key)
           (buildInventory [{ Key := some "p/_INGEST_DONE" },
             { Key := some "p/a.txt", Size := some 3, ETag := some "e" }] "p/_INGEST_DONE")
       ∧ (∀ objects2, objects2 = [{ Key := some "p/_INGEST_DONE" },
             { Key := some "p/a.txt", Size := some 3, ETag := some "e" }] →
           buildInventory objects2 "p/_INGEST_DONE"
             = buildInventory [{ Key := some "p/_INGEST_DONE" },
                 { Key := some "p/a.txt", Size := some 3, ETag := some "e" }] "p/_INGEST_DONE")) :=
  ⟨⟨by decide, by decide, by decide, by decide, by decide⟩,
   C8_inventory_deterministic_sorted 5000 false
     [[{ Key := some "p/_INGEST_DONE" },
       { Key := some "p/a.txt", Size := some 3, ETag := some "e" }]] (fun _ => "T")
     [{ Key := some "p/_INGEST_DONE" },
      { Key := some "p/a.txt", Size := some 3, ETag := some "e" }] "b" "p/" "p/_INGEST_DONE"
     (by decide) (by decide) (by decide) (by decide) (by decide)⟩

/-- C4 counterexample: for a listing holding only the marker object, the
handler returns `ok = false` with the itemized `EMPTY_FOLDER:` error, but
its machine-readable `reason` field is `FAILED_VALIDATION`, not
`EMPTY_FOLDER` as the claim states; `EMPTY_FOLDER` never appears in the
`reason` field. -/
theorem C4_counterexample :
    (ingest_validate_handler 5000 false [[{ Key := some "p/_INGEST_DONE" }]] (fun _ => "T")
        (some "b") (some "p/") (some "p/_INGEST_DONE")).ok = false
    ∧ (ingest_validate_handler 5000 false [[{ Key := some "p/_INGEST_DONE" }]] (fun _ => "T")
        (some "b") (some "p/") (some "p/_INGEST_DONE")).reason = "FAILED_VALIDATION"
    ∧ (ingest_validate_handler 5000 false [[{ Key := some "p/_INGEST_DONE" }]] (fun _ => "T")
        (some "b") (some "p/") (some "p/_INGEST_DONE")).errors
        = ["EMPTY_FOLDER: no payload objects found (excluding _INGEST_DONE)"]
    ∧ ("FAILED_VALIDATION" : String) ≠ "EMPTY_FOLDER" :=
  ⟨by decide, by decide, by decide, by decide⟩

/-- C4 (amended): when the listing is non-empty but the payload set (after
excluding the marker) is empty, the handler returns `ok = false` with
`reason = FAILED_VALIDATION` and the single itemized error string starting
`EMPTY_FOLDER:`; when the listing is entirely empty the `reason` field is
`FOLDER_NOT_FOUND_OR_EMPTY` — two distinct outcomes of the same field. -/
theorem C4_empty_payload_vs_empty_listing (maxKeys : Nat) (allowZero : Bool)
    (pages : List (List S3Object)) (clock : Nat → String)
    (objects : List S3Object) (bucket fp mk : String)
    (hb : bucket.isEmpty = false) (hf : fp.isEmpty = false) (hm : mk.isEmpty = false)
    (hobj : list_all_objects maxKeys pages = objects) :
    (objects ≠ [] → payloadOf mk objects = [] →
      (ingest_validate_handler maxKeys allowZero pages clock
          (some bucket) (some fp) (some mk)).ok = false
      ∧ (ingest_validate_handler maxKeys allowZero pages clock
          (some bucket) (some fp) (some mk)).reason = "FAILED_VALIDATION"
      ∧ (ingest_validate_handler maxKeys allowZero pages clock
          (some bucket) (some fp) (some mk)).errors
          = ["EMPTY_FOLDER: no payload objects found (excluding _INGEST_DONE)"])
    ∧ (objects = [] →
      (ingest_validate_handler maxKeys allowZero pages clock
          (some bucket) (some fp) (some mk)).ok = false
      ∧ (ingest_validate_handler maxKeys allowZero pages clock
          (some bucket) (some fp) (some mk)).reason = "FOLDER_NOT_FOUND_OR_EMPTY")
    ∧ ("FAILED_VALIDATION" : String) ≠ "FOLDER_NOT_FOUND_OR_EMPTY" := by
  refine ⟨?_, ?_, by decide⟩
  · intro hne hpay
    have hlen : objects.length ≠ 0 := by
      simpa [List.length_eq_zero] using hne
    have hv : validate_objects allowZero objects mk
        = (false, ["EMPTY_FOLDER: no payload objects found (excluding _INGEST_DONE)"]) := by
      simp [validate_objects, hpay]
    refine ⟨?_, ?_, ?_⟩ <;>
      simp [ingest_validate_handler, truthyS, hb, hf, hm, hobj, hlen, hv]
  · intro hnil
    have hlen : objects.length = 0 := by simp [hnil]
    refine ⟨?_, ?_⟩ <;>
      simp [ingest_validate_handler, truthyS, hb, hf, hm, hobj, hlen]

theorem C4_empty_payload_vs_empty_listing_witness :
    (("b" : String).isEmpty = false ∧ ("p/" : String).isEmpty = false
      ∧ ("p/_INGEST_DONE" : String).isEmpty = false
      ∧ list_all_objects 5000 [[{ Key := some "p/_INGEST_DONE" }]]
          = [{ Key := some "p/_INGEST_DONE" }])
    ∧ ((([{ Key := some "p/_INGEST_DONE" }] : List S3Object) ≠ []
        → payloadOf "p/_INGEST_DONE" [{ Key := some "p/_INGEST_DONE" }] = [] →
        (ingest_validate_handler 5000 false [[{ Key := some "p/_INGEST_DONE" }]] (fun _ => "T")
            (some "b") (some "p/") (some "p/_INGEST_DONE")).ok = false
        ∧ (ingest_validate_handler 5000 false [[{ Key := some "p/_INGEST_DONE" }]] (fun _ => "T")
            (some "b") (some "p/") (some "p/_INGEST_DONE")).reason = "FAILED_VALIDATION"
        ∧ (ingest_validate_handler 5000 false [[{ Key := some "p/_INGEST_DONE" }]] (fun _ => "T")
            (some "b") (some "p/") (some "p/_INGEST_DONE")).errors
            = ["EMPTY_FOLDER: no payload objects found (excluding _INGEST_DONE)"])
       ∧ (([{ Key := some "p/_INGEST_DONE" }] : List S3Object) = [] →
        (ingest_validate_handler 5000 false [[{ Key := some "p/_INGEST_DONE" }]] (fun _ => "T")
            (some "b") (some "p/") (some "p/_INGEST_DONE")).ok = false
        ∧ (ingest_validate_handler 5000 false [[{ Key := some "p/_INGEST_DONE" }]] (fun _ => "T")
            (some "b") (some "p/") (some "p/_INGEST_DONE")).reason = "FOLDER_NOT_FOUND_OR_EMPTY")
       ∧ ("FAILED_VALIDATION" : String) ≠ "FOLDER_NOT_FOUND_OR_EMPTY") :=
  ⟨⟨by decide, by decide, by decide, by decide⟩,
   C4_empty_payload_vs_empty_listing 5000 false [[{ Key := some "p/_INGEST_DONE" }]]
     (fun _ => "T") [{ Key := some "p/_INGEST_DONE" }] "b" "p/" "p/_INGEST_DONE"
     (by decide) (by decide) (by decide) (by decide)⟩

theorem wm_messages_distinct (u e1 e2 : String) :
    ("Failed to write manifest to " ++ u ++ ": " ++ e1)
      ≠ "Manifest written but DynamoDB update failed: " ++ e2 := by
  intro h
  have hd : ("Failed to write manifest to " ++ u ++ ": " ++ e1).data.head?
      = ("Manifest written but DynamoDB update failed: " ++ e2).data.head? := by rw [h]
  have h1 : ("Failed to write manifest to " : String).data.head? = some 'F' := rfl
  have h2 : ("Manifest written but DynamoDB update failed: " : String).data.head?
      = some 'M' := rfl
  rw [String.data_append, String.data_append, String.data_append, String.data_append] at hd
  rw [List.head?_append, List.head?_append, List.head?_append, List.head?_append] at hd
  rw [h1, h2] at hd
  simp [Option.or] at hd

/-- C7: if the manifest write fails, the job table and the object store are
left untouched and the failure is surfaced; if the write succeeds and the
pointer update fails, the manifest is in the store, the job table is left
untouched, and a distinct failure is surfaced; the two failure values are
never equal; and whenever the handler modified the job table at all, the
manifest is present in the store at its deterministic location. -/
theorem C7_manifest_failure_semantics (env : Option String) (d : String)
    (ev : WmEvent) (clock : Nat → String) (jobs : Jobs) (store : S3Store)
    (ctx : WmCtx) (hres : wm_resolve d ev = .ok ctx) :
    (∀ (e : String) (dbupd : Except String Unit),
      write_manifest_handler env d ev clock (.error e) dbupd jobs store
        = (jobs, store, .error (.runtimeError
            ("Failed to write manifest to "
              ++ ("s3://" ++ outBucketOf env ctx ++ "/" ++ manifestKeyOf ctx) ++ ": " ++ e))))
    ∧ (∀ e : String, write_manifest_handler env d ev clock (.ok ()) (.error e) jobs store
        = (jobs,
           s3PutDoc store (outBucketOf env ctx) (manifestKeyOf ctx)
             (build_manifest ctx (clock 0)),
           .error (.runtimeError ("Manifest written but DynamoDB update failed: " ++ e))))
    ∧ (∀ e1 e2 : String,
        (PyError.runtimeError ("Failed to write manifest to "
            ++ ("s3://" ++ outBucketOf env ctx ++ "/" ++ manifestKeyOf ctx) ++ ": " ++ e1))
          ≠ PyError.runtimeError ("Manifest written but DynamoDB update failed: " ++ e2))
    ∧ (∀ (s3put dbupd : Except String Unit),
        (write_manifest_handler env d ev clock s3put dbupd jobs store).1 ≠ jobs →
        (write_manifest_handler env d ev clock s3put dbupd jobs store).2.1
            (outBucketOf env ctx) (manifestKeyOf ctx)
          = some (build_manifest ctx (clock 0))) := by
  refine ⟨?_, ?_, ?_, ?_⟩
  · intro e dbupd
    simp [write_manifest_handler, hres]
  · intro e
    simp [write_manifest_handler, hres]
  · intro e1 e2 h
    have hmsg := PyError.runtimeError.inj h
    exact wm_messages_distinct ("s3://" ++ outBucketOf env ctx ++ "/" ++ manifestKeyOf ctx)
      e1 e2 hmsg
  · intro s3put dbupd hne
    cases s3put with
    | error e => simp [write_manifest_handler, hres] at hne
    | ok u =>
      cases dbupd with
      | error e => simp [write_manifest_handler, hres] at hne
      | ok u2 => simp [write_manifest_handler, hres, s3PutDoc]

/-- C10: whenever the manifest writer accepts its input, the manifest it
assembles carries `state = {name: VALIDATED, reason: validation_succeeded}`
unconditionally (the event carries no validation verdict the writer could
inspect), its inventory is exactly the resolved inventory — the empty list
when the validation stage supplied none — and whenever the S3 write
succeeds the manifest so marked is stored at its deterministic location. -/
theorem C10_manifest_unconditionally_validated (env : Option String) (d : String)
    (ev : WmEvent) (clock : Nat → String) (jobs : Jobs) (store : S3Store)
    (ctx : WmCtx) (hres : wm_resolve d ev = .ok ctx) :
    (build_manifest ctx (clock 0)).state_name = "VALIDATED"
    ∧ (build_manifest ctx (clock 0)).state_reason = "validation_succeeded"
    ∧ (build_manifest ctx (clock 0)).inventory = ctx.inventory
    ∧ (ev.vr_inventory = none → ev.inventory = none → ctx.inventory = [])
    ∧ (∀ dbupd : Except String Unit,
        (write_manifest_handler env d ev clock (.ok ()) dbupd jobs store).2.1
          (outBucketOf env ctx) (manifestKeyOf ctx) = some (build_manifest ctx (clock 0))) := by
  refine ⟨rfl, rfl, rfl, ?_, ?_⟩
  · intro h1 h2
    simp only [wm_resolve] at hres
    split at hres
    · exact absurd hres (by simp)
    · split at hres
      · exact absurd hres (by simp)
      · have hctx := Except.ok.inj hres
        rw [← hctx]
        simp [h1, h2, listOr]
  · intro dbupd
    cases dbupd <;> simp [write_manifest_handler, hres, s3PutDoc]

theorem C7_manifest_failure_semantics_witness :
    (wm_resolve "v1.0" wmEv0 = .ok wmCtx0)
    ∧ ((∀ (e : String) (dbupd : Except String Unit),
        write_manifest_handler none "v1.0" wmEv0 (fun _ => "T")
          (.error e) dbupd (fun _ => none) (fun _ _ => none)
          = ((fun _ => none), (fun _ _ => none), .error (.runtimeError
              ("Failed to write manifest to "
                ++ ("s3://" ++ outBucketOf none wmCtx0 ++ "/" ++ manifestKeyOf wmCtx0)
                ++ ": " ++ e))))
      ∧ (∀ e : String, write_manifest_handler none "v1.0" wmEv0 (fun _ => "T")
          (.ok ()) (.error e) (fun _ => none) (fun _ _ => none)
          = ((fun _ => none),
             s3PutDoc (fun _ _ => none) (outBucketOf none wmCtx0) (manifestKeyOf wmCtx0)
               (build_manifest wmCtx0 "T"),
             .error (.runtimeError ("Manifest written but DynamoDB update failed: " ++ e))))
      ∧ (∀ e1 e2 : String,
          (PyError.runtimeError ("Failed to write manifest to "
              ++ ("s3://" ++ outBucketOf none wmCtx0 ++ "/" ++ manifestKeyOf wmCtx0)
              ++ ": " ++ e1))
            ≠ PyError.runtimeError ("Manifest written but DynamoDB update failed: " ++ e2))
      ∧ (∀ (s3put dbupd : Except String Unit),
          (write_manifest_handler none "v1.0" wmEv0 (fun _ => "T")
            s3put dbupd (fun _ => none) (fun _ _ => none)).1 ≠ (fun _ => none) →
          (write_manifest_handler none "v1.0" wmEv0 (fun _ => "T")
            s3put dbupd (fun _ => none) (fun _ _ => none)).2.1
              (outBucketOf none wmCtx0) (manifestKeyOf wmCtx0)
            = some (build_manifest wmCtx0 "T"))) :=
  ⟨rfl,
   C7_manifest_failure_semantics none "v1.0" wmEv0 (fun _ => "T")
     (fun _ => none) (fun _ _ => none) wmCtx0 rfl⟩

theorem C10_manifest_unconditionally_validated_witness :
    (wm_resolve "v1.0" wmEv0 = .ok wmCtx0)
    ∧ ((build_manifest wmCtx0 "T").state_name = "VALIDATED"
      ∧ (build_manifest wmCtx0 "T").state_reason = "validation_succeeded"
      ∧ (build_manifest wmCtx0 "T").inventory = wmCtx0.inventory
      ∧ (wmEv0.vr_inventory = none → wmEv0.inventory = none → wmCtx0.inventory = [])
      ∧ (∀ dbupd : Except String Unit,
          (write_manifest_handler none "v1.0" wmEv0 (fun _ => "T") (.ok ()) dbupd
            (fun _ => none) (fun _ _ => none)).2.1
            (outBucketOf none wmCtx0) (manifestKeyOf wmCtx0)
            = some (build_manifest wmCtx0 "T"))) :=
  ⟨rfl,
   C10_manifest_unconditionally_validated none "v1.0" wmEv0 (fun _ => "T")
     (fun _ => none) (fun _ _ => none) wmCtx0 rfl⟩

end Ingest


